import Mathlib

/-!
# Verification of the Hemi_the_robot trading pipeline

Shallow embedding of the decision-relevant parts of the repository:

* `src/validator.py` — `FundamentalValidator.check_health` and
  `FundamentalValidator.validate_tickers`;
* `src/engine.py` — `TradingEngine.calculate_confidence_score`,
  `TradingEngine.evaluate_ticker`, `TradingEngine.create_trading_flags`
  and the simplified health computation inside
  `TradingEngine.get_recent_data`;
* `src/discovery.py` — the mention-velocity formula in
  `DiscoveryEngine.track_reddit_mentions` and
  `DiscoveryEngine._get_previous_mention_count`.

Modelling conventions:

* Python floats are modelled as `ℚ` (exact arithmetic over the values the
  code manipulates); Python `None` as `Option.none`.
* Python truthiness of numeric fields: `None` and `0` are falsy; of string
  fields: `None` and `""` are falsy.
* Python's `round(x, 2)` (round half to even) is `round2`.
* Human-readable reason strings produced by `check_health` are modelled as a
  tagged `Reason` type carrying the interpolated numeric values; log output,
  rationale strings and sleep/rate-limit calls have no observable effect on
  the values under study and are not modelled.
-/

/-- Python's banker's rounding to the nearest integer (round half to even). -/
def roundHalfEven (x : ℚ) : ℤ :=
  if x - ⌊x⌋ < 1/2 then ⌊x⌋
  else if 1/2 < x - ⌊x⌋ then ⌊x⌋ + 1
  else if ⌊x⌋ % 2 = 0 then ⌊x⌋ else ⌊x⌋ + 1

/-- Python's `round(x, 2)`. -/
def round2 (x : ℚ) : ℚ := (roundHalfEven (x * 100) : ℚ) / 100

theorem roundHalfEven_le (x : ℚ) (n : ℤ) (h : x ≤ (n : ℚ)) : roundHalfEven x ≤ n := by
  have hf : ⌊x⌋ ≤ n := by
    have := Int.floor_le_floor h
    simpa using this
  unfold roundHalfEven
  split_ifs with h1 h2 h3
  · exact hf
  · -- here `1/2 < x - ⌊x⌋`, so `⌊x⌋ + 1 ≤ x + 1/2 ≤ n + 1/2 < n + 1`
    have : ((⌊x⌋ + 1 : ℤ) : ℚ) < ((n + 1 : ℤ) : ℚ) := by push_cast; linarith
    exact Int.lt_add_one_iff.mp (by exact_mod_cast this)
  · exact hf
  · -- the half-way case with odd floor: `x - ⌊x⌋ = 1/2` exactly
    have hr : x - ⌊x⌋ = 1/2 := le_antisymm (not_lt.mp h2) (not_lt.mp h1)
    have : ((⌊x⌋ + 1 : ℤ) : ℚ) < ((n + 1 : ℤ) : ℚ) := by push_cast; linarith
    exact Int.lt_add_one_iff.mp (by exact_mod_cast this)

theorem roundHalfEven_nonneg (x : ℚ) (h : 0 ≤ x) : 0 ≤ roundHalfEven x := by
  have hf : (0 : ℤ) ≤ ⌊x⌋ := Int.le_floor.mpr (by exact_mod_cast h)
  unfold roundHalfEven
  split_ifs <;> omega

theorem round2_le (x : ℚ) (n : ℤ) (h : x ≤ (n : ℚ)) : round2 x ≤ (n : ℚ) := by
  have h100 : x * 100 ≤ ((n * 100 : ℤ) : ℚ) := by push_cast; linarith
  have := roundHalfEven_le (x * 100) (n * 100) h100
  unfold round2
  rw [div_le_iff₀ (by norm_num : (0:ℚ) < 100)]
  exact_mod_cast this

theorem round2_nonneg (x : ℚ) (h : 0 ≤ x) : 0 ≤ round2 x := by
  have := roundHalfEven_nonneg (x * 100) (by linarith)
  unfold round2
  positivity

/-- Python truthiness of an optional numeric value (`None` and `0` are falsy). -/
def pyTruthyQ : Option ℚ → Bool
  | none => false
  | some q => decide (q ≠ 0)

/-- Python falsiness of an optional numeric value. -/
def pyFalsyQ (x : Option ℚ) : Bool := !(pyTruthyQ x)

theorem pyFalsyQ_none : pyFalsyQ none = true := rfl

theorem pyFalsyQ_some (q : ℚ) : pyFalsyQ (some q) = decide (q = 0) := by
  simp [pyFalsyQ, pyTruthyQ]

/-- Python falsiness of an optional string value (`None` and `""` are falsy). -/
def pyFalsyS : Option String → Bool
  | none => true
  | some s => decide (s = "")

namespace FundamentalValidator

/-- validator.py:25 — `MIN_MARKET_CAP = 500_000_000`. -/
def MIN_MARKET_CAP : ℚ := 500000000

/-- validator.py:26 — `MAX_DEBT_TO_EQUITY = 2.0`. -/
def MAX_DEBT_TO_EQUITY : ℚ := 2

/-- validator.py:27 — `MIN_PROFIT_MARGIN = -0.50`. -/
def MIN_PROFIT_MARGIN : ℚ := -1/2

/-- The fields of the fundamentals dictionary that `check_health` reads
(validator.py:63-80); the remaining fetched fields do not influence the
health check. -/
structure Fundamentals where
  company_name : Option String
  market_cap : Option ℚ
  debt_to_equity : Option ℚ
  revenue_growth : Option ℚ
  profit_margin : Option ℚ
  current_price : Option ℚ
  deriving DecidableEq

/-- The three critical fields of check 4 (validator.py:162). -/
inductive CriticalField
  | marketCap
  | currentPrice
  | companyName
  deriving DecidableEq

/-- The reason strings appended by `check_health`, as tags carrying the
interpolated values, plus the fetch-failure reason used by
`validate_tickers` (validator.py:270). -/
inductive Reason
  | missingMarketCap
  | marketCapBelowMin (cap : ℚ)
  | debtTooHigh (ratio : ℚ)
  | marginTooLow (margin : ℚ)
  | missingCritical (fields : List CriticalField)
  | fetchFailed
  deriving DecidableEq

/-- Check 1 (validator.py:134-143): market cap missing or below minimum. -/
def mcCheck : Option ℚ → List Reason × ℚ
  | none => ([Reason.missingMarketCap], 30)
  | some c => if c < MIN_MARKET_CAP then ([Reason.marketCapBelowMin c], 30) else ([], 0)

/-- Check 2 (validator.py:145-151): debt-to-equity above maximum. -/
def deCheck : Option ℚ → List Reason × ℚ
  | none => ([], 0)
  | some d => if MAX_DEBT_TO_EQUITY < d then ([Reason.debtTooHigh d], 20) else ([], 0)

/-- Check 3 (validator.py:153-159): profit margin below `MIN_PROFIT_MARGIN`. -/
def pmCheck : Option ℚ → List Reason × ℚ
  | none => ([], 0)
  | some m => if m < MIN_PROFIT_MARGIN then ([Reason.marginTooLow m], 25) else ([], 0)

/-- validator.py:162-163 — critical fields with a Python-falsy value. -/
def missingFields (f : Fundamentals) : List CriticalField :=
  (if pyFalsyQ f.market_cap then [CriticalField.marketCap] else []) ++
  (if pyFalsyQ f.current_price then [CriticalField.currentPrice] else []) ++
  (if pyFalsyS f.company_name then [CriticalField.companyName] else [])

/-- Check 4 (validator.py:161-166): `-15` per missing critical field,
one combined reason. -/
def criticalCheck (f : Fundamentals) : List Reason × ℚ :=
  let mf := missingFields f
  if mf.isEmpty then ([], 0)
  else ([Reason.missingCritical mf], 15 * mf.length)

/-- Bonus (validator.py:168-172): `+10` when revenue growth is truthy
and `> 20`. -/
def growthBonus : Option ℚ → ℚ
  | none => 0
  | some g => if g ≠ 0 ∧ 20 < g then 10 else 0

/-- The `(is_healthy, reasons, health_score)` tuple returned by
`check_health` (validator.py:120-184). -/
structure HealthResult where
  is_healthy : Bool
  reasons : List Reason
  health_score : ℚ
  deriving DecidableEq

/-- Embeds `FundamentalValidator.check_health` (validator.py:120-184). -/
def check_health (f : Fundamentals) : HealthResult :=
  let c1 := mcCheck f.market_cap
  let c2 := deCheck f.debt_to_equity
  let c3 := pmCheck f.profit_margin
  let c4 := criticalCheck f
  let reasons := c1.1 ++ c2.1 ++ c3.1 ++ c4.1
  -- validator.py:175 — `health_score = max(0, min(100, health_score))`
  let score := max 0 (min 100 (100 - c1.2 - c2.2 - c3.2 - c4.2 + growthBonus f.revenue_growth))
  -- validator.py:177 — `is_healthy = health_score >= 60 and len(reasons) <= 1`
  { is_healthy := decide (60 ≤ score) && decide (reasons.length ≤ 1),
    reasons := reasons,
    health_score := score }

/-- validator.py:177 spelled as an equation on the two conditions. -/
theorem check_health_is_healthy_eq (f : Fundamentals) :
    (check_health f).is_healthy =
      (decide (60 ≤ (check_health f).health_score) &&
       decide ((check_health f).reasons.length ≤ 1)) := rfl

end FundamentalValidator

namespace TradingEngine

open FundamentalValidator

/-- engine.py:25 — `APEWISDOM_TOP_N = 20`. -/
def APEWISDOM_TOP_N : ℕ := 20

/-- engine.py:26 — `REDDIT_VELOCITY_THRESHOLD = 20.0`. -/
def REDDIT_VELOCITY_THRESHOLD : ℚ := 20

/-- engine.py:27 — `MIN_HEALTH_SCORE = 60.0`. -/
def MIN_HEALTH_SCORE : ℚ := 60

/-- engine.py:28 — `MIN_CONFIDENCE_SCORE = 70.0`. -/
def MIN_CONFIDENCE_SCORE : ℚ := 70

/-- engine.py:125 — `if not fund_data.get('market_cap') or
fund_data['market_cap'] < 500_000_000` (the short-circuiting `not x`
covers both `None` and `0`). -/
def engineMarketCapDeduct : Option ℚ → Bool
  | none => true
  | some c => decide (c = 0) || decide (c < 500000000)

/-- engine.py:129-130 — `if debt_to_equity and debt_to_equity > 2.0`. -/
def engineDebtDeduct : Option ℚ → Bool
  | none => false
  | some d => decide (d ≠ 0) && decide (2 < d)

/-- engine.py:134-135 — `if profit_margin and profit_margin < -50`. -/
def engineMarginDeduct : Option ℚ → Bool
  | none => false
  | some m => decide (m ≠ 0) && decide (m < -50)

/-- The simplified health score computed inline in
`TradingEngine.get_recent_data` (engine.py:121-138), as a function of the
three fields read from the latest `fundamental_stats` row. -/
def engineHealthScore (market_cap debt_to_equity profit_margin : Option ℚ) : ℚ :=
  let s : ℚ := 100
  let s := if engineMarketCapDeduct market_cap then s - 30 else s
  let s := if engineDebtDeduct debt_to_equity then s - 20 else s
  let s := if engineMarginDeduct profit_margin then s - 25 else s
  max 0 s

theorem engineHealthScore_eq (mc de pm : Option ℚ) :
    engineHealthScore mc de pm =
      max 0 (100 - (if engineMarketCapDeduct mc then (30:ℚ) else 0)
        - (if engineDebtDeduct de then (20:ℚ) else 0)
        - (if engineMarginDeduct pm then (25:ℚ) else 0)) := by
  simp only [engineHealthScore]
  split_ifs <;> ring_nf

end TradingEngine

/-! ## Claims C2, C3, C4, C10 — the health check -/

open FundamentalValidator TradingEngine

/-- The fundamentals record of the spec's health-score round trip:
`market_cap=None, debt_to_equity=1.0, profit_margin=5`, every other field
present and unremarkable. -/
def c2Fund : Fundamentals :=
  { company_name := some "Acme", market_cap := none, debt_to_equity := some 1,
    revenue_growth := some 10, profit_margin := some 5, current_price := some 150 }

theorem check_health_c2Fund_eval :
    check_health c2Fund =
      { is_healthy := false,
        reasons := [Reason.missingMarketCap,
                    Reason.missingCritical [CriticalField.marketCap]],
        health_score := 55 } := by
  norm_num [check_health, c2Fund, mcCheck, deCheck, pmCheck, criticalCheck, missingFields,
    growthBonus, pyFalsyQ, pyTruthyQ, pyFalsyS, MIN_MARKET_CAP, MAX_DEBT_TO_EQUITY,
    MIN_PROFIT_MARGIN, max_def, min_def, show ¬("Acme" = "") from by decide]

/-- C2 counterexample: on `market_cap=None, debt_to_equity=1, profit_margin=5`
with all other fields present, `check_health` does NOT return score 70 with a
single reason and `is_healthy=True` — the missing market cap also trips the
missing-critical-data check, giving score 55, two reasons and
`is_healthy=False`. -/
theorem check_health_round_trip_refuted :
    ¬((check_health c2Fund).health_score = 70 ∧
      (check_health c2Fund).reasons.length = 1 ∧
      (check_health c2Fund).is_healthy = true) := by
  rw [check_health_c2Fund_eval]
  norm_num

/-- C2 (amended): for every fundamentals record with `market_cap=None`,
`debt_to_equity=1`, `profit_margin=5`, truthy current price and company name,
and no strong-revenue-growth bonus, `check_health` returns health score
`100-30-15 = 55`, exactly two reasons, and `is_healthy = False`. -/
theorem check_health_round_trip_amended (f : Fundamentals)
    (hmc : f.market_cap = none) (hde : f.debt_to_equity = some 1)
    (hpm : f.profit_margin = some 5) (hcp : pyTruthyQ f.current_price = true)
    (hcn : pyFalsyS f.company_name = false)
    (hrg : ∀ g, f.revenue_growth = some g → g ≤ 20) :
    (check_health f).health_score = 55 ∧ (check_health f).reasons.length = 2 ∧
      (check_health f).is_healthy = false := by
  have hbonus : growthBonus f.revenue_growth = 0 := by
    cases hg : f.revenue_growth with
    | none => simp [growthBonus]
    | some g =>
      have hle := hrg g hg
      simp [growthBonus, not_lt.mpr hle]
  have h1 : pyFalsyQ f.market_cap = true := by simp [pyFalsyQ, pyTruthyQ, hmc]
  have h2 : pyFalsyQ f.current_price = false := by simp [pyFalsyQ, hcp]
  norm_num [check_health, mcCheck, deCheck, pmCheck, criticalCheck, missingFields,
    hmc, hde, hpm, h1, h2, hcn, hbonus, pyFalsyQ_none,
    MIN_MARKET_CAP, MAX_DEBT_TO_EQUITY, MIN_PROFIT_MARGIN, max_def, min_def]

/-- Witness for `check_health_round_trip_amended` at the concrete record. -/
theorem check_health_round_trip_amended_witness :
    (check_health c2Fund).health_score = 55 ∧ (check_health c2Fund).reasons.length = 2 ∧
      (check_health c2Fund).is_healthy = false :=
  check_health_round_trip_amended c2Fund rfl rfl rfl (by decide) (by decide)
    (fun g hg => by
      have h10 : (10:ℚ) = g := Option.some.inj hg
      rw [← h10]; norm_num)

theorem check_health_score_eq (f : Fundamentals) :
    (check_health f).health_score =
      max 0 (min 100 (100 - (mcCheck f.market_cap).2 - (deCheck f.debt_to_equity).2
        - (pmCheck f.profit_margin).2 - (criticalCheck f).2
        + growthBonus f.revenue_growth)) := rfl

/-- C3 counterexample: on a record with `market_cap=None` (other fields
present), the simplified health computation inside
`TradingEngine.get_recent_data` yields 70 while
`FundamentalValidator.check_health` yields 55 — the engine omits the
missing-critical-data deduction, so its per-ticker `health_score` is NOT
the Validation health score for the same fundamentals. -/
theorem engine_health_vs_validator_refuted :
    engineHealthScore c2Fund.market_cap c2Fund.debt_to_equity c2Fund.profit_margin ≠
      (check_health c2Fund).health_score := by
  rw [check_health_c2Fund_eval]
  norm_num [engineHealthScore, engineMarketCapDeduct, engineDebtDeduct, engineMarginDeduct,
    c2Fund, max_def]

/-- C3 (amended): the engine's simplified health computation agrees with
`check_health` exactly on records where the two codepaths trigger the same
deductions: market cap present and nonzero, truthy current price and company
name (no missing-critical deduction), no strong-revenue-growth bonus, and
profit margin outside `[-50, -0.5)` (where the two margin thresholds
disagree, see C4). On such records the scores coincide. -/
theorem engine_health_refines_check_health (f : Fundamentals)
    (hmc : ∃ c, f.market_cap = some c ∧ c ≠ 0)
    (hcp : pyTruthyQ f.current_price = true)
    (hcn : pyFalsyS f.company_name = false)
    (hrg : ∀ g, f.revenue_growth = some g → g ≤ 20)
    (hpm : ∀ m, f.profit_margin = some m → MIN_PROFIT_MARGIN ≤ m ∨ m < -50) :
    engineHealthScore f.market_cap f.debt_to_equity f.profit_margin =
      (check_health f).health_score := by
  obtain ⟨c, hc, hc0⟩ := hmc
  -- no missing-critical deduction
  have hcrit : criticalCheck f = ([], 0) := by
    have h2 : pyFalsyQ f.current_price = false := by simp [pyFalsyQ, hcp]
    simp [criticalCheck, missingFields, hc, pyFalsyQ_some, hc0, h2, hcn]
  -- no revenue bonus
  have hbonus : growthBonus f.revenue_growth = 0 := by
    cases hg : f.revenue_growth with
    | none => simp [growthBonus]
    | some g =>
      have hle := hrg g hg
      simp [growthBonus, not_lt.mpr hle]
  -- the market-cap deductions agree
  have hmceq : (if engineMarketCapDeduct f.market_cap then (30:ℚ) else 0) =
      (mcCheck f.market_cap).2 := by
    rw [hc]
    simp only [engineMarketCapDeduct, mcCheck, MIN_MARKET_CAP]
    by_cases hlt : c < 500000000
    · simp [hlt]
    · simp [hlt, hc0]
  -- the debt deductions agree
  have hdeeq : (if engineDebtDeduct f.debt_to_equity then (20:ℚ) else 0) =
      (deCheck f.debt_to_equity).2 := by
    cases hd : f.debt_to_equity with
    | none => simp [engineDebtDeduct, deCheck]
    | some d =>
      simp only [engineDebtDeduct, deCheck, MAX_DEBT_TO_EQUITY]
      by_cases hlt : (2:ℚ) < d
      · have hd0 : d ≠ 0 := by intro h0; rw [h0] at hlt; norm_num at hlt
        simp [hlt, hd0]
      · simp [hlt]
  -- the margin deductions agree under the hypothesis on the margin
  have hpmeq : (if engineMarginDeduct f.profit_margin then (25:ℚ) else 0) =
      (pmCheck f.profit_margin).2 := by
    cases hm : f.profit_margin with
    | none => simp [engineMarginDeduct, pmCheck]
    | some m =>
      rcases hpm m hm with hge | hlt
      · have h1 : ¬(m < MIN_PROFIT_MARGIN) := not_lt.mpr hge
        have h2 : ¬(m < -50) := by
          intro h
          apply h1
          norm_num [MIN_PROFIT_MARGIN]
          linarith
        simp [engineMarginDeduct, pmCheck, h1, h2]
      · have h1 : m < MIN_PROFIT_MARGIN := by
          norm_num [MIN_PROFIT_MARGIN]
          linarith
        have h2 : m ≠ 0 := by intro h0; rw [h0] at hlt; norm_num at hlt
        simp [engineMarginDeduct, pmCheck, h1, h2, hlt]
  rw [engineHealthScore_eq, check_health_score_eq, hcrit, hbonus, hmceq, hdeeq, hpmeq]
  -- the common pre-clamp value is at most 100, so the validator's `min 100` drops
  have b1 : (0:ℚ) ≤ (mcCheck f.market_cap).2 := by
    rw [hc]
    simp only [mcCheck]
    split_ifs <;> norm_num
  have b2 : (0:ℚ) ≤ (deCheck f.debt_to_equity).2 := by
    cases f.debt_to_equity with
    | none => norm_num [deCheck]
    | some d =>
      simp only [deCheck]
      split_ifs <;> norm_num
  have b3 : (0:ℚ) ≤ (pmCheck f.profit_margin).2 := by
    cases f.profit_margin with
    | none => norm_num [pmCheck]
    | some m =>
      simp only [pmCheck]
      split_ifs <;> norm_num
  have hmin : min 100 (100 - (mcCheck f.market_cap).2 - (deCheck f.debt_to_equity).2
      - (pmCheck f.profit_margin).2 - 0 + 0) =
      100 - (mcCheck f.market_cap).2 - (deCheck f.debt_to_equity).2
      - (pmCheck f.profit_margin).2 - 0 + 0 := by
    apply min_eq_right
    linarith
  rw [hmin]
  congr 1
  ring

/-- A fully-populated healthy record, used to witness the agreement case. -/
def c3FundW : Fundamentals :=
  { company_name := some "Acme", market_cap := some 1000000000, debt_to_equity := some 1,
    revenue_growth := none, profit_margin := some 5, current_price := some 150 }

/-- Witness for `engine_health_refines_check_health`: a fully-populated
healthy record, where both computations give 100. -/
theorem engine_health_refines_check_health_witness :
    engineHealthScore c3FundW.market_cap c3FundW.debt_to_equity c3FundW.profit_margin =
      (check_health c3FundW).health_score :=
  engine_health_refines_check_health c3FundW
    ⟨1000000000, rfl, by norm_num⟩ (by decide) (by decide)
    (fun g hg => Option.noConfusion hg)
    (fun m hm => Or.inl (by
      have h5 : (5:ℚ) = m := Option.some.inj hm
      rw [← h5]; norm_num [MIN_PROFIT_MARGIN]))

theorem check_health_reasons_eq (f : Fundamentals) :
    (check_health f).reasons =
      (mcCheck f.market_cap).1 ++ (deCheck f.debt_to_equity).1 ++
      (pmCheck f.profit_margin).1 ++ (criticalCheck f).1 := rfl

/-- A record whose only blemish is a (moderately) negative profit margin of
`-5` percent, with everything else healthy. -/
def c4Fund : Fundamentals :=
  { company_name := some "Acme", market_cap := some 1000000000, debt_to_equity := some 1,
    revenue_growth := none, profit_margin := some (-5), current_price := some 150 }

/-- The same record with a profit margin of `-60` percent. -/
def c4FundB : Fundamentals :=
  { company_name := some "Acme", market_cap := some 1000000000, debt_to_equity := some 1,
    revenue_growth := none, profit_margin := some (-60), current_price := some 150 }

/-- C4: the profit-margin deduction in `check_health` does NOT fire exactly
below `-50` percent. `fetch_fundamentals` converts margins to percent
(validator.py:92-94), yet `MIN_PROFIT_MARGIN = -0.50` (validator.py:27) keeps
the decimal form of `-50%`; so a margin of `-5` percent — inside the claim's
no-deduction zone `[-50, ∞)` — is deducted 25 points by `check_health`
(score 75), while the engine's parallel check (engine.py:135, threshold
`-50`) deducts nothing (score 100). At `-60` percent both deduct, as the
claim says. -/
theorem profit_margin_threshold_divergence :
    (check_health c4Fund).health_score = 75 ∧
    Reason.marginTooLow (-5) ∈ (check_health c4Fund).reasons ∧
    engineHealthScore c4Fund.market_cap c4Fund.debt_to_equity c4Fund.profit_margin = 100 ∧
    (check_health c4FundB).health_score = 75 ∧
    engineHealthScore c4FundB.market_cap c4FundB.debt_to_equity c4FundB.profit_margin = 75 := by
  norm_num [check_health, c4Fund, c4FundB, mcCheck, deCheck, pmCheck, criticalCheck,
    missingFields, growthBonus, pyFalsyQ, pyTruthyQ, pyFalsyS,
    MIN_MARKET_CAP, MAX_DEBT_TO_EQUITY, MIN_PROFIT_MARGIN,
    engineHealthScore, engineMarketCapDeduct, engineDebtDeduct, engineMarginDeduct,
    max_def, min_def, show ¬("Acme" = "") from by decide]

/-- A record with `market_cap = 0` (Python-falsy but not `None`) and all
other fields present. -/
def c10Fund : Fundamentals :=
  { company_name := some "Acme", market_cap := some 0, debt_to_equity := some 1,
    revenue_growth := none, profit_margin := some 5, current_price := some 150 }

/-- C10 counterexample: for `market_cap = 0` — falsy but not `None` —
`check_health` appends the below-minimum reason, not the missing-market-cap
reason, so the claim's "appends the missing-market-cap reason for every falsy
market cap" fails at this input. -/
theorem falsy_market_cap_reasons_refuted :
    Reason.missingMarketCap ∉ (check_health c10Fund).reasons ∧
    (check_health c10Fund).reasons =
      [Reason.marketCapBelowMin 0,
       Reason.missingCritical [CriticalField.marketCap]] := by
  norm_num [check_health, c10Fund, mcCheck, deCheck, pmCheck, criticalCheck,
    missingFields, growthBonus, pyFalsyQ, pyTruthyQ, pyFalsyS,
    MIN_MARKET_CAP, MAX_DEBT_TO_EQUITY, MIN_PROFIT_MARGIN,
    show ¬("Acme" = "") from by decide]
  exact ⟨by decide, by decide⟩

/-- C10 (amended): for every record whose market cap is Python-falsy
(`None` or `0`), `check_health` appends a 30-point market-cap reason from
check 1 (the missing-data reason when `None`, the below-minimum reason when
`0`) AND the missing-critical-data reason from check 4, so there are at
least two reasons and `is_healthy = False` regardless of every other
field — such a ticker can never be classified healthy. -/
theorem falsy_market_cap_never_healthy (f : Fundamentals)
    (h : pyFalsyQ f.market_cap = true) :
    2 ≤ (check_health f).reasons.length ∧
    (check_health f).is_healthy = false ∧
    CriticalField.marketCap ∈ missingFields f ∧
    Reason.missingCritical (missingFields f) ∈ (check_health f).reasons ∧
    (f.market_cap = none → Reason.missingMarketCap ∈ (check_health f).reasons) ∧
    (f.market_cap = some 0 → Reason.marketCapBelowMin 0 ∈ (check_health f).reasons) := by
  have hmem : CriticalField.marketCap ∈ missingFields f := by
    simp [missingFields, h]
  have hne : missingFields f ≠ [] := List.ne_nil_of_mem hmem
  have hie : (missingFields f).isEmpty = false := by
    cases hmf : missingFields f with
    | nil => exact absurd hmf hne
    | cons a l => rfl
  have hcrit1 : (criticalCheck f).1 = [Reason.missingCritical (missingFields f)] := by
    simp [criticalCheck, hie]
  have hmc1 : (mcCheck f.market_cap).1.length = 1 := by
    cases hm : f.market_cap with
    | none => simp [mcCheck]
    | some c =>
      have hc0 : c = 0 := by
        rw [hm, pyFalsyQ_some] at h
        exact of_decide_eq_true h
      rw [hc0]
      norm_num [mcCheck, MIN_MARKET_CAP]
  have hlen : 2 ≤ (check_health f).reasons.length := by
    rw [check_health_reasons_eq]
    simp only [List.length_append, hmc1, hcrit1, List.length_singleton]
    omega
  refine ⟨hlen, ?_, hmem, ?_, ?_, ?_⟩
  · rw [check_health_is_healthy_eq]
    have hgt : ¬((check_health f).reasons.length ≤ 1) := by omega
    simp [hgt]
  · rw [check_health_reasons_eq]
    simp [hcrit1]
  · intro hm
    rw [check_health_reasons_eq]
    simp [mcCheck, hm]
  · intro hm
    rw [check_health_reasons_eq]
    simp [mcCheck, hm, MIN_MARKET_CAP, show (0:ℚ) < 500000000 from by norm_num]

/-- Witness for `falsy_market_cap_never_healthy` at `market_cap = 0`. -/
theorem falsy_market_cap_never_healthy_witness :
    2 ≤ (check_health c10Fund).reasons.length ∧
    (check_health c10Fund).is_healthy = false ∧
    CriticalField.marketCap ∈ missingFields c10Fund ∧
    Reason.missingCritical (missingFields c10Fund) ∈ (check_health c10Fund).reasons ∧
    (c10Fund.market_cap = none → Reason.missingMarketCap ∈ (check_health c10Fund).reasons) ∧
    (c10Fund.market_cap = some 0 → Reason.marketCapBelowMin 0 ∈ (check_health c10Fund).reasons) :=
  falsy_market_cap_never_healthy c10Fund (by decide)

/-! ## The scoring and gating functions of the Decision Engine -/

namespace TradingEngine

/-- The per-ticker aggregate built by `get_recent_data` (engine.py:63-73)
and consumed by `calculate_confidence_score` and `evaluate_ticker`. -/
structure TickerData where
  ticker_id : ℕ
  apewisdom_rank : Option ℕ
  apewisdom_mentions : ℕ
  reddit_mentions_24h : ℕ
  reddit_velocity_pct : ℚ
  market_cap : Option ℚ
  health_score : ℚ
  current_price : Option ℚ
  deriving DecidableEq

/-- Factor 1 (engine.py:171-182): ApeWisdom rank, 30 points max; `none`
when the rank is Python-falsy (absent or 0), in which case the factor
contributes nothing and is omitted from the breakdown. -/
def rankScore : Option ℕ → Option ℚ
  | none => none
  | some r =>
    if r = 0 then none
    else if r ≤ 5 then some 30
    else if r ≤ 10 then some 25
    else if r ≤ 20 then some 20
    else some 10

/-- Factor 2 (engine.py:184-195): Reddit velocity, 30 points max, with a
linear taper `10 * (velocity / 20)` below 20. -/
def velocityScore (v : ℚ) : ℚ :=
  if 100 ≤ v then 30
  else if 50 ≤ v then 25
  else if 20 ≤ v then 20
  else 10 * (v / 20)

/-- Factor 3 (engine.py:197-201): fundamental health, 25 points max. -/
def healthContribution (h : ℚ) : ℚ := h / 100 * 25

/-- Factor 4 (engine.py:203-214): mention volume, 15 points max, floor 5. -/
def mentionScore (total : ℕ) : ℚ :=
  if 1000 ≤ total then 15
  else if 500 ≤ total then 12
  else if 100 ≤ total then 10
  else 5

/-- Embeds `TradingEngine.calculate_confidence_score` (engine.py:158-216): the
rounded sum of the four factors. -/
def calculate_confidence_score (d : TickerData) : ℚ :=
  round2 ((rankScore d.apewisdom_rank).getD 0
    + velocityScore d.reddit_velocity_pct
    + healthContribution d.health_score
    + mentionScore (d.apewisdom_mentions + d.reddit_mentions_24h))

/-- The per-factor breakdown map returned alongside the score; the rank key
is omitted when the rank is Python-falsy (engine.py:172,182). -/
def confidenceBreakdown (d : TickerData) : List (String × ℚ) :=
  (match rankScore d.apewisdom_rank with
   | some s => [("apewisdom_rank", s)]
   | none => []) ++
  [("reddit_velocity", velocityScore d.reddit_velocity_pct),
   ("fundamental_health", healthContribution d.health_score),
   ("mention_volume", mentionScore (d.apewisdom_mentions + d.reddit_mentions_24h))]

/-- The four early-return sites of `evaluate_ticker` (engine.py:232,239,246,259). -/
inductive Gate
  | rankGate
  | velocityGate
  | healthGate
  | confidenceGate
  deriving DecidableEq

/-- The flag dictionary built by `evaluate_ticker` (engine.py:270-286);
the rationale string and metadata map are operator-facing renderings of the
same fields and are not modelled. -/
structure FlagData where
  ticker_id : ℕ
  flag_type : String
  entry_price : Option ℚ
  confidence_score : ℚ
  status : String
  deriving DecidableEq

/-- engine.py:232 — `if not ticker_data['apewisdom_rank'] or
ticker_data['apewisdom_rank'] > self.APEWISDOM_TOP_N`. -/
def rankPasses : Option ℕ → Bool
  | none => false
  | some r => decide (r ≠ 0) && decide (r ≤ APEWISDOM_TOP_N)

/-- Embeds `TradingEngine.evaluate_ticker` (engine.py:218-290), with each
`return None` site tagged by the rule that fired. -/
def evaluateR (d : TickerData) : Except Gate FlagData :=
  if !rankPasses d.apewisdom_rank then .error .rankGate
  else if d.reddit_velocity_pct < REDDIT_VELOCITY_THRESHOLD then .error .velocityGate
  else if d.health_score < MIN_HEALTH_SCORE then .error .healthGate
  else
    let conf := calculate_confidence_score d
    if conf < MIN_CONFIDENCE_SCORE then .error .confidenceGate
    else .ok { ticker_id := d.ticker_id, flag_type := "BUY",
               entry_price := d.current_price, confidence_score := conf,
               status := "OPEN" }

/-- The visible result of `evaluate_ticker`: the flag, or `None` on rejection. -/
def evaluate_ticker (d : TickerData) : Option FlagData := (evaluateR d).toOption

end TradingEngine

/-! ## Claims C1, C6, C7 — scoring and gating -/

open TradingEngine

theorem rankScore_bounds (r : Option ℕ) :
    0 ≤ (rankScore r).getD 0 ∧ (rankScore r).getD 0 ≤ 30 := by
  cases r with
  | none => norm_num [rankScore]
  | some n =>
    simp only [rankScore]
    split_ifs <;> norm_num

theorem velocityScore_le (v : ℚ) : velocityScore v ≤ 30 := by
  unfold velocityScore
  split_ifs with h1 h2 h3 <;> push_neg at * <;> linarith

theorem velocityScore_nonneg (v : ℚ) (h : 0 ≤ v) : 0 ≤ velocityScore v := by
  unfold velocityScore
  split_ifs <;> linarith

theorem mentionScore_bounds (n : ℕ) : 5 ≤ mentionScore n ∧ mentionScore n ≤ 15 := by
  unfold mentionScore
  split_ifs <;> norm_num

/-- C7: the velocity factor is the three-step function with a linear taper
`10 * (velocity / 20)` below 20 — negative for negative velocity — and takes
the spec's table of values at `{-40, 0, 19, 20, 50, 99, 100, 200}`. -/
theorem velocity_factor_spec :
    (∀ v : ℚ, 100 ≤ v → velocityScore v = 30) ∧
    (∀ v : ℚ, 50 ≤ v → v < 100 → velocityScore v = 25) ∧
    (∀ v : ℚ, 20 ≤ v → v < 50 → velocityScore v = 20) ∧
    (∀ v : ℚ, v < 20 → velocityScore v = 10 * (v / 20)) ∧
    velocityScore (-40) = -20 ∧ velocityScore 0 = 0 ∧
    velocityScore 19 = 19/2 ∧ velocityScore 20 = 20 ∧
    velocityScore 50 = 25 ∧ velocityScore 99 = 25 ∧
    velocityScore 100 = 30 ∧ velocityScore 200 = 30 := by
  refine ⟨?_, ?_, ?_, ?_, ?_, ?_, ?_, ?_, ?_, ?_, ?_, ?_⟩
  · intro v h
    simp [velocityScore, h]
  · intro v h1 h2
    rw [velocityScore, if_neg (not_le.mpr h2), if_pos h1]
  · intro v h1 h2
    rw [velocityScore, if_neg (not_le.mpr (by linarith : v < 100)),
      if_neg (not_le.mpr h2), if_pos h1]
  · intro v h
    rw [velocityScore, if_neg (not_le.mpr (by linarith : v < 100)),
      if_neg (not_le.mpr (by linarith : v < 50)), if_neg (not_le.mpr h)]
  all_goals norm_num [velocityScore]

/-- Witness for `velocity_factor_spec` at concrete velocities in each band. -/
theorem velocity_factor_spec_witness :
    velocityScore 150 = 30 ∧ velocityScore 75 = 25 ∧ velocityScore 30 = 20 ∧
    velocityScore 5 = 10 * (5 / 20) :=
  ⟨velocity_factor_spec.1 150 (by norm_num),
   velocity_factor_spec.2.1 75 (by norm_num) (by norm_num),
   velocity_factor_spec.2.2.1 30 (by norm_num) (by norm_num),
   velocity_factor_spec.2.2.2.1 5 (by norm_num)⟩

/-- A signal with no rank, no mentions, zero health and velocity `-40`. -/
def c1Signal : TickerData :=
  { ticker_id := 1, apewisdom_rank := none, apewisdom_mentions := 0,
    reddit_mentions_24h := 0, reddit_velocity_pct := -40, market_cap := none,
    health_score := 0, current_price := none }

/-- C1 counterexample: `calculate_confidence_score` is NOT bounded below by
0 — at rank absent, zero mentions, zero health and velocity `-40` the
returned score is `-15` (`0 - 20 + 0 + 5`), which is negative. -/
theorem confidence_score_negative_example :
    calculate_confidence_score c1Signal = -15 ∧ calculate_confidence_score c1Signal < 0 := by
  have h : calculate_confidence_score c1Signal = -15 := by
    norm_num [calculate_confidence_score, c1Signal, rankScore, velocityScore,
      healthContribution, mentionScore, round2, roundHalfEven]
  exact ⟨h, by rw [h]; norm_num⟩

/-- C1 (amended): with `health_score ∈ [0,100]`, the confidence score never
exceeds 100; it is nonnegative whenever `reddit_velocity_pct ≥ 0`, but the
claimed lower bound 0 fails for negative velocity
(`confidence_score_negative_example`). -/
theorem confidence_score_bounds (d : TickerData) (h0 : 0 ≤ d.health_score)
    (h1 : d.health_score ≤ 100) :
    calculate_confidence_score d ≤ 100 ∧
    (0 ≤ d.reddit_velocity_pct → 0 ≤ calculate_confidence_score d) := by
  have hr := rankScore_bounds d.apewisdom_rank
  have hv := velocityScore_le d.reddit_velocity_pct
  have hm := mentionScore_bounds (d.apewisdom_mentions + d.reddit_mentions_24h)
  have hh1 : healthContribution d.health_score ≤ 25 := by
    unfold healthContribution
    linarith
  have hh0 : 0 ≤ healthContribution d.health_score := by
    unfold healthContribution
    linarith
  constructor
  · have hsum : (rankScore d.apewisdom_rank).getD 0
        + velocityScore d.reddit_velocity_pct
        + healthContribution d.health_score
        + mentionScore (d.apewisdom_mentions + d.reddit_mentions_24h) ≤ ((100:ℤ):ℚ) := by
      push_cast
      linarith [hr.2, hm.2]
    have := round2_le _ 100 hsum
    unfold calculate_confidence_score
    exact_mod_cast this
  · intro hvel
    have hvnn := velocityScore_nonneg d.reddit_velocity_pct hvel
    apply round2_nonneg
    linarith [hr.1, hm.1]

/-- A concrete mid-range signal: rank 3, velocity 150, health 80,
1200 mentions (the spec's end-to-end scenario A shape). -/
def c1SignalW : TickerData :=
  { ticker_id := 2, apewisdom_rank := some 3, apewisdom_mentions := 1200,
    reddit_mentions_24h := 0, reddit_velocity_pct := 150, market_cap := some 1000000000,
    health_score := 80, current_price := some 150 }

/-- Witness for `confidence_score_bounds` at a concrete mid-range signal. -/
theorem confidence_score_bounds_witness :
    calculate_confidence_score c1SignalW ≤ 100 ∧
    (0 ≤ c1SignalW.reddit_velocity_pct → 0 ≤ calculate_confidence_score c1SignalW) :=
  confidence_score_bounds c1SignalW (by norm_num [c1SignalW]) (by norm_num [c1SignalW])

/-- C6: `evaluate_ticker` applies RankGate, VelocityGate, HealthGate,
ConfidenceGate in that strict order, short-circuiting on the first
failure: a null rank is rejected at RankGate for every value of the other
fields, and each later gate fires only when all earlier gates pass. The
spec's scenario B (`rank=15, velocity=10, health=90`) is rejected at
VelocityGate and produces no flag. -/
theorem evaluate_ticker_gate_order :
    (∀ d : TickerData, d.apewisdom_rank = none →
      evaluateR d = .error .rankGate) ∧
    (∀ (d : TickerData) (r : ℕ), d.apewisdom_rank = some r → 20 < r →
      evaluateR d = .error .rankGate) ∧
    (∀ (d : TickerData) (r : ℕ), d.apewisdom_rank = some r → 0 < r → r ≤ 20 →
      d.reddit_velocity_pct < 20 →
      evaluateR d = .error .velocityGate) ∧
    (∀ (d : TickerData) (r : ℕ), d.apewisdom_rank = some r → 0 < r → r ≤ 20 →
      20 ≤ d.reddit_velocity_pct → d.health_score < 60 →
      evaluateR d = .error .healthGate) ∧
    (∀ (d : TickerData) (r : ℕ), d.apewisdom_rank = some r → 0 < r → r ≤ 20 →
      20 ≤ d.reddit_velocity_pct → 60 ≤ d.health_score →
      calculate_confidence_score d < 70 →
      evaluateR d = .error .confidenceGate) ∧
    (∀ d : TickerData, d.apewisdom_rank = some 15 → d.reddit_velocity_pct = 10 →
      d.health_score = 90 →
      evaluateR d = .error .velocityGate ∧ evaluate_ticker d = none) := by
  refine ⟨?_, ?_, ?_, ?_, ?_, ?_⟩
  · intro d h
    simp [evaluateR, rankPasses, h]
  · intro d r h hgt
    have : ¬(r ≤ APEWISDOM_TOP_N) := by
      simp [APEWISDOM_TOP_N]
      omega
    simp [evaluateR, rankPasses, h, this]
  · intro d r h h0 h20 hv
    have hp : rankPasses d.apewisdom_rank = true := by
      simp [rankPasses, h, APEWISDOM_TOP_N]
      omega
    simp [evaluateR, hp, REDDIT_VELOCITY_THRESHOLD, hv]
  · intro d r h h0 h20 hv hh
    have hp : rankPasses d.apewisdom_rank = true := by
      simp [rankPasses, h, APEWISDOM_TOP_N]
      omega
    simp [evaluateR, hp, REDDIT_VELOCITY_THRESHOLD, not_lt.mpr hv,
      MIN_HEALTH_SCORE, hh]
  · intro d r h h0 h20 hv hh hc
    have hp : rankPasses d.apewisdom_rank = true := by
      simp [rankPasses, h, APEWISDOM_TOP_N]
      omega
    simp [evaluateR, hp, REDDIT_VELOCITY_THRESHOLD, not_lt.mpr hv,
      MIN_HEALTH_SCORE, not_lt.mpr hh, MIN_CONFIDENCE_SCORE, hc]
  · intro d hr hv hh
    have hp : rankPasses d.apewisdom_rank = true := by
      simp [rankPasses, hr, APEWISDOM_TOP_N]
    have he : evaluateR d = .error .velocityGate := by
      norm_num [evaluateR, hp, REDDIT_VELOCITY_THRESHOLD, hv]
    exact ⟨he, by simp [evaluate_ticker, he, Except.toOption]⟩

/-- The spec's scenario-B signal: rank 15, velocity 10, health 90. -/
def c6Signal : TickerData :=
  { ticker_id := 3, apewisdom_rank := some 15, apewisdom_mentions := 400,
    reddit_mentions_24h := 100, reddit_velocity_pct := 10, market_cap := some 1000000000,
    health_score := 90, current_price := some 150 }

/-- Witness for `evaluate_ticker_gate_order`: scenario B concretely, plus
the rank-gate case at a null rank. -/
theorem evaluate_ticker_gate_order_witness :
    (evaluateR c6Signal = .error .velocityGate ∧ evaluate_ticker c6Signal = none) ∧
    evaluateR c1Signal = .error .rankGate :=
  ⟨evaluate_ticker_gate_order.2.2.2.2.2 c6Signal rfl rfl rfl,
   evaluate_ticker_gate_order.1 c1Signal rfl⟩

/-! ## Claim C5 — flag creation and the at-most-one-open-flag invariant -/

namespace TradingEngine

/-- The store rows matching `create_trading_flags`'s existence query
(engine.py:313-317): same `ticker_id` and status `OPEN`. -/
def openFlagsFor (store : List FlagData) (tid : ℕ) : List FlagData :=
  store.filter (fun f => decide (f.ticker_id = tid) && decide (f.status = "OPEN"))

/-- engine.py:319 — `if existing.data:` on that query. -/
def hasOpenFlag (store : List FlagData) (tid : ℕ) : Bool :=
  !(openFlagsFor store tid).isEmpty

/-- All store rows with the given `ticker_id`, any status. -/
def flagsFor (store : List FlagData) (tid : ℕ) : List FlagData :=
  store.filter (fun f => decide (f.ticker_id = tid))

/-- Embeds `TradingEngine.create_trading_flags` (engine.py:292-332) over a store
modelled as the list of persisted flag rows (inserts append): returns the
updated store and the `created_count`. -/
def create_trading_flags (store : List FlagData) : List FlagData → List FlagData × ℕ
  | [] => (store, 0)
  | c :: rest =>
    if hasOpenFlag store c.ticker_id then
      create_trading_flags store rest
    else
      let r := create_trading_flags (store ++ [c]) rest
      (r.1, r.2 + 1)

/-- At most one OPEN flag per ticker_id — the invariant of §4.3. -/
def AtMostOneOpen (store : List FlagData) : Prop :=
  ∀ tid, (openFlagsFor store tid).length ≤ 1

theorem openFlagsFor_append (s t : List FlagData) (tid : ℕ) :
    openFlagsFor (s ++ t) tid = openFlagsFor s tid ++ openFlagsFor t tid := by
  simp [openFlagsFor, List.filter_append]

theorem hasOpenFlag_iff (s : List FlagData) (tid : ℕ) :
    hasOpenFlag s tid = true ↔ ∃ f ∈ s, f.ticker_id = tid ∧ f.status = "OPEN" := by
  constructor
  · intro h
    have hne : openFlagsFor s tid ≠ [] := by
      intro hnil
      simp [hasOpenFlag, hnil] at h
    obtain ⟨f, hf⟩ := List.exists_mem_of_ne_nil _ hne
    have hm := List.mem_filter.mp hf
    have hp := hm.2
    simp only [Bool.and_eq_true, decide_eq_true_eq] at hp
    exact ⟨f, hm.1, hp.1, hp.2⟩
  · rintro ⟨f, hfs, h1, h2⟩
    have : f ∈ openFlagsFor s tid := by
      apply List.mem_filter.mpr
      refine ⟨hfs, ?_⟩
      simp [h1, h2]
    have hne : openFlagsFor s tid ≠ [] := List.ne_nil_of_mem this
    cases hof : openFlagsFor s tid with
    | nil => exact absurd hof hne
    | cons a l => simp [hasOpenFlag, hof]

theorem hasOpenFlag_append_left (s t : List FlagData) (tid : ℕ)
    (h : hasOpenFlag s tid = true) : hasOpenFlag (s ++ t) tid = true := by
  rw [hasOpenFlag_iff] at h ⊢
  obtain ⟨f, hfs, h1, h2⟩ := h
  exact ⟨f, List.mem_append_left t hfs, h1, h2⟩

/-- The run only appends to the store (inserts are appends, nothing is
removed). -/
theorem create_trading_flags_extends (batch : List FlagData) :
    ∀ store : List FlagData, ∃ ext, (create_trading_flags store batch).1 = store ++ ext := by
  induction batch with
  | nil => exact fun store => ⟨[], by simp [create_trading_flags]⟩
  | cons c rest ih =>
    intro store
    by_cases h : hasOpenFlag store c.ticker_id = true
    · obtain ⟨ext, hext⟩ := ih store
      exact ⟨ext, by simp [create_trading_flags, h, hext]⟩
    · obtain ⟨ext, hext⟩ := ih (store ++ [c])
      refine ⟨[c] ++ ext, ?_⟩
      simp only [create_trading_flags, if_neg h]
      rw [hext]
      simp

/-- Per-candidate skip: while an OPEN flag exists in the store for a
ticker_id, no run inserts any flag for that ticker_id. -/
theorem create_trading_flags_skips (batch : List FlagData) :
    ∀ (store : List FlagData) (tid : ℕ), hasOpenFlag store tid = true →
      flagsFor (create_trading_flags store batch).1 tid = flagsFor store tid := by
  induction batch with
  | nil => intro store tid _; simp [create_trading_flags]
  | cons c rest ih =>
    intro store tid h
    by_cases hc : hasOpenFlag store c.ticker_id = true
    · simp only [create_trading_flags, if_pos hc]
      exact ih store tid h
    · have hne : c.ticker_id ≠ tid := fun he => hc (he ▸ h)
      have h2 : hasOpenFlag (store ++ [c]) tid = true := hasOpenFlag_append_left _ _ _ h
      simp only [create_trading_flags, if_neg hc]
      rw [ih (store ++ [c]) tid h2]
      simp [flagsFor, List.filter_append, hne]

/-- After a run over a batch of OPEN candidates, every candidate's
ticker_id has an OPEN flag in the store. -/
theorem create_trading_flags_opens (batch : List FlagData) :
    ∀ store : List FlagData, (∀ c ∈ batch, c.status = "OPEN") →
      ∀ c ∈ batch, hasOpenFlag (create_trading_flags store batch).1 c.ticker_id = true := by
  induction batch with
  | nil => intro store _ c hc; exact absurd hc (List.not_mem_nil c)
  | cons b rest ih =>
    intro store hall c hc
    by_cases hb : hasOpenFlag store b.ticker_id = true
    · rcases List.mem_cons.mp hc with rfl | hr
      · obtain ⟨ext, hext⟩ := create_trading_flags_extends rest store
        simp only [create_trading_flags, if_pos hb]
        rw [hext]
        exact hasOpenFlag_append_left _ _ _ hb
      · simp only [create_trading_flags, if_pos hb]
        exact ih store (fun x hx => hall x (List.mem_cons_of_mem _ hx)) c hr
    · have hbopen : b.status = "OPEN" := hall b (List.mem_cons_self _ _)
      have hb2 : hasOpenFlag (store ++ [b]) b.ticker_id = true := by
        rw [hasOpenFlag_iff]
        exact ⟨b, by simp, rfl, hbopen⟩
      rcases List.mem_cons.mp hc with rfl | hr
      · obtain ⟨ext, hext⟩ := create_trading_flags_extends rest (store ++ [c])
        simp only [create_trading_flags, if_neg hb]
        rw [hext]
        exact hasOpenFlag_append_left _ _ _ hb2
      · simp only [create_trading_flags, if_neg hb]
        exact ih (store ++ [b]) (fun x hx => hall x (List.mem_cons_of_mem _ hx)) c hr

/-- A run in which every candidate's ticker_id already has an OPEN flag
changes nothing and creates zero flags. -/
theorem create_trading_flags_noop (batch : List FlagData) :
    ∀ store : List FlagData, (∀ c ∈ batch, hasOpenFlag store c.ticker_id = true) →
      create_trading_flags store batch = (store, 0) := by
  induction batch with
  | nil => intro store _; rfl
  | cons b rest ih =>
    intro store hall
    have hb := hall b (List.mem_cons_self _ _)
    simp only [create_trading_flags, if_pos hb]
    exact ih store (fun c hc => hall c (List.mem_cons_of_mem _ hc))

theorem create_trading_flags_invariant (batch : List FlagData) :
    ∀ store : List FlagData, AtMostOneOpen store →
      AtMostOneOpen (create_trading_flags store batch).1 := by
  induction batch with
  | nil => intro store h; simpa [create_trading_flags] using h
  | cons c rest ih =>
    intro store h
    by_cases hc : hasOpenFlag store c.ticker_id = true
    · simp only [create_trading_flags, if_pos hc]
      exact ih store h
    · simp only [create_trading_flags, if_neg hc]
      apply ih
      intro tid
      rw [openFlagsFor_append, List.length_append]
      by_cases hmatch : c.ticker_id = tid ∧ c.status = "OPEN"
      · -- the candidate becomes the only OPEN flag for this ticker_id
        have hof : hasOpenFlag store tid = false := by
          rw [← hmatch.1]
          exact Bool.eq_false_iff.mpr hc
        have hstore : openFlagsFor store tid = [] := by
          have hie : (openFlagsFor store tid).isEmpty = true := by
            simpa [hasOpenFlag] using hof
          simpa using hie
        have hsing : (openFlagsFor [c] tid).length ≤ 1 := by
          simp [openFlagsFor, List.filter]
          split <;> simp
        rw [hstore]
        simpa using hsing
      · -- the candidate does not match the query for this ticker_id
        have hpred : (decide (c.ticker_id = tid) && decide (c.status = "OPEN")) = false := by
          by_cases h1 : c.ticker_id = tid
          · have h2 : c.status ≠ "OPEN" := fun h2 => hmatch ⟨h1, h2⟩
            simp [h1, h2]
          · simp [h1]
        have hone : openFlagsFor [c] tid = [] := by
          simp [openFlagsFor, List.filter, hpred]
        rw [hone]
        simpa using h tid

end TradingEngine

/-- C5: flag creation skips every candidate whose ticker_id already has an
OPEN flag (inserting nothing for that ticker), a second run over the same
batch of OPEN candidates creates zero new flags and leaves the store
unchanged, and the at-most-one-open-flag-per-ticker invariant is preserved
by every run. -/
theorem create_flags_idempotent_invariant :
    (∀ (store batch : List FlagData) (tid : ℕ), hasOpenFlag store tid = true →
      flagsFor (create_trading_flags store batch).1 tid = flagsFor store tid) ∧
    (∀ (store batch : List FlagData), (∀ c ∈ batch, c.status = "OPEN") →
      create_trading_flags (create_trading_flags store batch).1 batch =
        ((create_trading_flags store batch).1, 0)) ∧
    (∀ (store batch : List FlagData), AtMostOneOpen store →
      AtMostOneOpen (create_trading_flags store batch).1) := by
  refine ⟨fun store batch tid h => create_trading_flags_skips batch store tid h,
          fun store batch hall => ?_,
          fun store batch h => create_trading_flags_invariant batch store h⟩
  exact create_trading_flags_noop batch _ (create_trading_flags_opens batch store hall)

/-- A concrete OPEN candidate flag. -/
def c5Flag : FlagData :=
  { ticker_id := 7, flag_type := "BUY", entry_price := some 10,
    confidence_score := 80, status := "OPEN" }

/-- Witness for `create_flags_idempotent_invariant` on a one-candidate
batch: skipping against a store that already holds the flag, idempotence of
a second run, and invariant preservation from the empty store. -/
theorem create_flags_idempotent_invariant_witness :
    flagsFor (create_trading_flags [c5Flag] [c5Flag]).1 7 = flagsFor [c5Flag] 7 ∧
    create_trading_flags (create_trading_flags [] [c5Flag]).1 [c5Flag] =
      ((create_trading_flags [] [c5Flag]).1, 0) ∧
    AtMostOneOpen (create_trading_flags [] [c5Flag]).1 :=
  ⟨create_flags_idempotent_invariant.1 [c5Flag] [c5Flag] 7 (by decide),
   create_flags_idempotent_invariant.2.1 [] [c5Flag]
     (fun c hc => by rw [List.mem_singleton.mp hc]; rfl),
   create_flags_idempotent_invariant.2.2 [] [c5Flag]
     (fun tid => by simp [openFlagsFor])⟩

/-! ## Claim C9 — mention velocity and the "previous" window -/

namespace DiscoveryEngine

/-- A stored `reddit_mention_velocity` row as read back by
`_get_previous_mention_count` (discovery.py:248-254); timestamps are
rationals on an absolute hour axis. -/
structure VelRecord where
  ts : ℚ
  mention_count_24h : ℕ
  deriving DecidableEq

/-- The effect of ordering by timestamp descending with limit 1 — the most recent record of a
result set. -/
def latestRecord : List VelRecord → Option VelRecord :=
  List.foldl (fun acc r =>
    match acc with
    | none => some r
    | some a => if a.ts < r.ts then some r else some a) none

/-- Embeds `DiscoveryEngine._get_previous_mention_count` (discovery.py:226-263):
the latest stored count whose timestamp is at or after
`now - 2*hours_back` — the query has a lower cutoff only (discovery.py:251)
— and 0 when nothing matches or the read fails. -/
def get_previous_mention_count (records : List VelRecord) (now hoursBack : ℚ) : ℕ :=
  let cutoff := now - 2 * hoursBack
  match latestRecord (records.filter (fun r => decide (cutoff ≤ r.ts))) with
  | some r => r.mention_count_24h
  | none => 0

/-- Modelled from the spec: the claim's "previous" — the most recent stored
count whose timestamp lies in the prior equal-length window, between
`2*lookback_hours` and `lookback_hours` ago. The code's
`_get_previous_mention_count` lacks this upper cutoff; this definition
follows the spec's words and exists only for the comparison. -/
def previousMentionCountSpec (records : List VelRecord) (now hoursBack : ℚ) : ℕ :=
  let lo := now - 2 * hoursBack
  let hi := now - hoursBack
  match latestRecord (records.filter (fun r => decide (lo ≤ r.ts) && decide (r.ts ≤ hi))) with
  | some r => r.mention_count_24h
  | none => 0

/-- The velocity formula (discovery.py:215-219). -/
def velocityChange (current previous : ℕ) : ℚ :=
  if 0 < previous then (((current:ℚ) - previous) / previous) * 100
  else if 0 < current then 100 else 0

/-- The stored `velocity_change_pct` (discovery.py:221): the formula
rounded to two decimals. -/
def velocity_change_pct (current previous : ℕ) : ℚ :=
  round2 (velocityChange current previous)

end DiscoveryEngine

/-- Two stored rows for one ticker: one from inside the current 24h window
(1 hour ago, count 500) and one from the prior window (30 hours ago,
count 7), with `now = 100` on the hour axis. -/
def c9Records : List DiscoveryEngine.VelRecord :=
  [{ ts := 99, mention_count_24h := 500 }, { ts := 70, mention_count_24h := 7 }]

/-- C9: the velocity formula itself matches the claim
(`((current-previous)/previous)*100`, `100` from zero, `0` at zero/zero),
but "previous" does not: `_get_previous_mention_count` has no upper time
cutoff, so with a record 1 hour old (count 500) and a prior-window record
30 hours old (count 7) it returns 500 — the latest count within the last
`2*lookback_hours` — where the claim's prior-window definition (the code
comment's "~24-48 hours ago") requires 7. -/
theorem mention_velocity_divergence :
    DiscoveryEngine.velocityChange 30 10 = 200 ∧
    DiscoveryEngine.velocityChange 5 0 = 100 ∧
    DiscoveryEngine.velocityChange 0 0 = 0 ∧
    DiscoveryEngine.velocity_change_pct 30 10 = 200 ∧
    DiscoveryEngine.get_previous_mention_count c9Records 100 24 = 500 ∧
    DiscoveryEngine.previousMentionCountSpec c9Records 100 24 = 7 := by
  refine ⟨?_, ?_, ?_, ?_, ?_, ?_⟩ <;>
    norm_num [DiscoveryEngine.velocityChange, DiscoveryEngine.velocity_change_pct,
      round2, roundHalfEven, DiscoveryEngine.get_previous_mention_count,
      DiscoveryEngine.previousMentionCountSpec, DiscoveryEngine.latestRecord,
      c9Records, List.filter, List.foldl]

/-! ## Claim C8 — failure granularity in batch retrieval/validation -/

namespace TradingEngine

/-- A `tickers` table row (engine.py:57). -/
structure TickerRow where
  id : ℕ
  symbol : String
  company_name : Option String
  deriving DecidableEq

/-- The latest `sentiment_logs` row for a ticker (engine.py:76-88). -/
structure ApeRow where
  rank : Option ℕ
  mention_count : ℕ
  deriving DecidableEq

/-- The latest `reddit_mention_velocity` row for a ticker (engine.py:91-107). -/
structure VelRow where
  mention_count_24h : ℕ
  velocity_change_pct : ℚ
  deriving DecidableEq

/-- The latest `fundamental_stats` row for a ticker (engine.py:110-142);
`current_price_raw` is the price extracted from `raw_data`. -/
structure FundRow where
  market_cap : Option ℚ
  profit_margin : Option ℚ
  debt_to_equity : Option ℚ
  current_price_raw : Option ℚ
  deriving DecidableEq

/-- The store reads `get_recent_data` performs, each able to raise; a query
returns the latest matching row within the cutoff, as already applied by
the store. -/
structure EngineStore where
  tickers : Except Unit (List TickerRow)
  latestSentiment : ℕ → Except Unit (Option ApeRow)
  latestVelocity : ℕ → Except Unit (Option VelRow)
  latestFundamentals : ℕ → Except Unit (Option FundRow)

/-- The per-ticker body of `get_recent_data`'s loop (engine.py:59-142):
defaults, then the three reads, each updating the aggregate. -/
def buildTickerData (store : EngineStore) (t : TickerRow) : Except Unit TickerData := do
  let d0 : TickerData :=
    { ticker_id := t.id, apewisdom_rank := none, apewisdom_mentions := 0,
      reddit_mentions_24h := 0, reddit_velocity_pct := 0, market_cap := none,
      health_score := 0, current_price := none }
  let ape ← store.latestSentiment t.id
  let d1 := match ape with
    | some a => { d0 with apewisdom_rank := a.rank, apewisdom_mentions := a.mention_count }
    | none => d0
  let vel ← store.latestVelocity t.id
  let d2 := match vel with
    | some v =>
      { d1 with reddit_mentions_24h := d1.reddit_mentions_24h + v.mention_count_24h,
                reddit_velocity_pct := max d1.reddit_velocity_pct v.velocity_change_pct }
    | none => d1
  let fund ← store.latestFundamentals t.id
  let d3 := match fund with
    | some f =>
      { d2 with market_cap := f.market_cap,
                health_score := engineHealthScore f.market_cap f.debt_to_equity f.profit_margin,
                current_price := f.current_price_raw }
    | none => d2
  pure d3

/-- The whole loop of `get_recent_data` inside its single `try`
(engine.py:55-152). -/
def get_recent_dataAux (store : EngineStore) : Except Unit (List (String × TickerData)) := do
  let ts ← store.tickers
  ts.foldlM (fun acc t => do
    let d ← buildTickerData store t
    pure (acc ++ [(t.symbol, d)])) []

/-- Embeds `TradingEngine.get_recent_data` (engine.py:40-156): one `try` wraps the
whole loop, and any failure returns the empty map (engine.py:154-156); the
final filter (engine.py:144-149) keeps rows with a non-null rank or a
positive 24h mention count. -/
def get_recent_data (store : EngineStore) : List (String × TickerData) :=
  match get_recent_dataAux store with
  | .ok rows =>
    rows.filter (fun p => p.2.apewisdom_rank.isSome || decide (0 < p.2.reddit_mentions_24h))
  | .error _ => []

end TradingEngine

namespace FundamentalValidator

/-- One entry of the dictionary returned by `validate_tickers`
(validator.py:266-284). -/
structure ValidationResult where
  valid : Bool
  fundamentals : Option Fundamentals
  health_check : HealthResult
  deriving DecidableEq

/-- validator.py:266-272 — the entry recorded when `fetch_fundamentals`
returns `None`. -/
def fetchFailedResult : ValidationResult :=
  { valid := false, fundamentals := none,
    health_check := { is_healthy := false, reasons := [Reason.fetchFailed],
                      health_score := 0 } }

/-- validator.py:274-284 — the entry recorded on a successful fetch. -/
def fetchedResult (f : Fundamentals) : ValidationResult :=
  let h := check_health f
  { valid := h.is_healthy, fundamentals := some f, health_check := h }

/-- Embeds `FundamentalValidator.validate_tickers` (validator.py:236-292) over an
abstract fundamentals source: `fetch_fundamentals` catches its own
exceptions and returns `None` on any failure (validator.py:102-118), each
symbol is processed independently, and rate-limit sleeps do not affect the
results. -/
def validate_tickers :
    List String → (String → Option Fundamentals) → List (String × ValidationResult)
  | [], _ => []
  | s :: rest, fetch =>
    (s, match fetch s with
        | none => fetchFailedResult
        | some f => fetchedResult f) :: validate_tickers rest fetch

end FundamentalValidator

open DiscoveryEngine in
/-- Ticker rows for the failure scenario. -/
def c8RowA : TradingEngine.TickerRow := { id := 1, symbol := "AAA", company_name := some "A Corp" }

def c8RowB : TradingEngine.TickerRow := { id := 2, symbol := "BBB", company_name := some "B Corp" }

/-- A store where every read for ticker 1 succeeds and every read for
ticker 2 raises. -/
def c8Store : TradingEngine.EngineStore :=
  { tickers := .ok [c8RowA, c8RowB],
    latestSentiment := fun tid =>
      if tid = 1 then .ok (some { rank := some 3, mention_count := 500 }) else .error (),
    latestVelocity := fun tid =>
      if tid = 1 then .ok (some { mention_count_24h := 120, velocity_change_pct := 45 })
      else .error (),
    latestFundamentals := fun tid =>
      if tid = 1 then
        .ok (some { market_cap := some 1000000000, profit_margin := some 5,
                    debt_to_equity := some 1, current_price_raw := some 150 })
      else .error () }

/-- The aggregate ticker 1's reads produce on their own. -/
def c8DataA : TickerData :=
  { ticker_id := 1, apewisdom_rank := some 3, apewisdom_mentions := 500,
    reddit_mentions_24h := 120, reddit_velocity_pct := 45,
    market_cap := some 1000000000, health_score := 100, current_price := some 150 }

/-- C8 counterexample: in `get_recent_data` a failing store read for ONE
ticker empties the whole batch — with ticker AAA's reads all succeeding
(producing `c8DataA`) and ticker BBB's sentiment read raising, the function
returns the empty map instead of AAA's data: the single `try` around the
loop aborts the batch. -/
theorem per_ticker_isolation_refuted :
    TradingEngine.buildTickerData c8Store c8RowA = .ok c8DataA ∧
    TradingEngine.get_recent_data c8Store = [] ∧
    ¬(("AAA", c8DataA) ∈ TradingEngine.get_recent_data c8Store) := by
  have hA : TradingEngine.buildTickerData c8Store c8RowA = .ok c8DataA := by
    norm_num [TradingEngine.buildTickerData, c8Store, c8RowA, c8DataA,
      TradingEngine.engineHealthScore, TradingEngine.engineMarketCapDeduct,
      TradingEngine.engineDebtDeduct, TradingEngine.engineMarginDeduct,
      bind, Except.bind, pure, Except.pure, max_def]
  have hErr : TradingEngine.get_recent_dataAux c8Store = .error () := by
    norm_num [TradingEngine.get_recent_dataAux, c8Store, c8RowA, c8RowB,
      TradingEngine.buildTickerData, List.foldlM,
      bind, Except.bind, pure, Except.pure]
  refine ⟨hA, ?_, ?_⟩
  · simp [TradingEngine.get_recent_data, hErr]
  · simp [TradingEngine.get_recent_data, hErr]

/-- C8 (amended): in the engine's `get_recent_data` a collaborator failure
is caught at batch granularity — any store error during the loop makes the
whole function return the empty map (`per_ticker_isolation_refuted`) — while
per-ticker isolation holds in the validator's `validate_tickers`: every
symbol of the batch receives its own entry determined only by its own
fetch, a failing symbol is recorded as invalid with the fetch-failure
reason, and other symbols' results are unaffected. -/
theorem error_isolation_amended :
    (∀ (store : TradingEngine.EngineStore) (e : Unit),
      TradingEngine.get_recent_dataAux store = .error e →
      TradingEngine.get_recent_data store = []) ∧
    (∀ (syms : List String) (fetch : String → Option Fundamentals), ∀ s ∈ syms,
      (fetch s = none →
        (s, FundamentalValidator.fetchFailedResult) ∈
          FundamentalValidator.validate_tickers syms fetch) ∧
      (∀ f, fetch s = some f →
        (s, FundamentalValidator.fetchedResult f) ∈
          FundamentalValidator.validate_tickers syms fetch)) := by
  constructor
  · intro store e h
    simp [TradingEngine.get_recent_data, h]
  · intro syms fetch
    induction syms with
    | nil => intro s hs; exact absurd hs (List.not_mem_nil s)
    | cons a rest ih =>
      intro s hs
      rcases List.mem_cons.mp hs with rfl | hr
      · constructor
        · intro hn
          simp only [FundamentalValidator.validate_tickers, hn]
          exact List.mem_cons_self _ _
        · intro f hf
          simp only [FundamentalValidator.validate_tickers, hf]
          exact List.mem_cons_self _ _
      · constructor
        · intro hn
          exact List.mem_cons_of_mem _ ((ih s hr).1 hn)
        · intro f hf
          exact List.mem_cons_of_mem _ ((ih s hr).2 f hf)

/-- The fetch function of the witness scenario: "GOOD" succeeds, all other
symbols fail. -/
def c8Fetch : String → Option Fundamentals :=
  fun s => if s = "GOOD" then some c3FundW else none

/-- Witness for `error_isolation_amended`: the concrete failing store, and
a two-symbol validation batch where the failing symbol is isolated. -/
theorem error_isolation_amended_witness :
    TradingEngine.get_recent_data c8Store = [] ∧
    ("BAD", FundamentalValidator.fetchFailedResult) ∈
      FundamentalValidator.validate_tickers ["GOOD", "BAD"] c8Fetch ∧
    ("GOOD", FundamentalValidator.fetchedResult c3FundW) ∈
      FundamentalValidator.validate_tickers ["GOOD", "BAD"] c8Fetch :=
  ⟨error_isolation_amended.1 c8Store () (by
      norm_num [TradingEngine.get_recent_dataAux, c8Store, c8RowA, c8RowB,
        TradingEngine.buildTickerData, List.foldlM,
        bind, Except.bind, pure, Except.pure]),
   (error_isolation_amended.2 ["GOOD", "BAD"] c8Fetch "BAD" (by simp)).1
     (by simp [c8Fetch]),
   (error_isolation_amended.2 ["GOOD", "BAD"] c8Fetch "GOOD" (by simp)).2 c3FundW
     (by simp [c8Fetch])⟩
